import Mathlib

/-!
# openfortivpn-webview (Qt): the event handlers of `MainWindow`

A shallow embedding of the handlers of `src/openfortivpn-webview-qt/mainwindow.cpp`
that decide what is printed to standard output and which exit code is requested:
`onCookieAdded`, `onCookieRemoved`, `onCertificateError`, `handleUrlChange` and
`closeEvent`.

Modelling conventions.
* The mutable members read and written by the handlers (`svpncookie`,
  `didSeeUrlToWaitFor`) form the record `MainWindow`; the constructor arguments
  (`keepOpen`, `urlToWaitForRegex`, `certificateHashToTrust`) form `Config`.
* A handler call returns an `Effect`: the members after the call, the lines it sent
  to `std::cout` (each `<< std::endl` closes one line) and the argument of
  `QApplication::exit` when the call reaches one.
* `QString` and `QByteArray` values are Lean strings: a cookie carries its name and
  its value as text, a URL is the text `url.toString()`.
* `QRegularExpression` belongs to Qt: `urlToWaitForRegex` is the predicate
  `fun s => urlToWaitForRegex.match(s).hasMatch()`.
* Logging (`qCDebug`, `qDebug`) goes to the logging sink, not to standard output,
  and is left out.
-/

namespace OpenfortivpnWebview

/-- The fields of a `QNetworkCookie` that the handlers read. -/
structure QNetworkCookie where
  name : String
  value : String
deriving DecidableEq, Repr

/-- The constructor arguments of `MainWindow` kept as constant members. -/
structure Config where
  keepOpen : Bool
  urlToWaitForRegex : String → Bool
  certificateHashToTrust : String

/-- The mutable members of `MainWindow` used by the handlers. -/
structure MainWindow where
  svpncookie : String
  didSeeUrlToWaitFor : Bool
deriving DecidableEq, Repr

/-- What one handler call does: the members afterwards, the lines written to
standard output, and the code passed to `QApplication::exit`, if any. -/
structure Effect where
  window : MainWindow
  stdout : List String
  exitCode : Option Int
deriving DecidableEq, Repr

/-- Modelled from the spec: the member initialisers of `mainwindow.h`, which is not
among the sources. The spec describes the state as one optional string (the captured
cookie) and the flag telling whether the target URL pattern was seen; at start no
cookie is stored and the flag is false. -/
def initialWindow : MainWindow :=
  { svpncookie := "", didSeeUrlToWaitFor := false }

/-- The handler `MainWindow::onCookieAdded` (mainwindow.cpp, lines 82-97). -/
def onCookieAdded (cfg : Config) (w : MainWindow) (cookie : QNetworkCookie) : Effect :=
  if cookie.name = "SVPNCOOKIE" then
    let w1 : MainWindow := { w with svpncookie := cookie.name ++ "=" ++ cookie.value }
    if w1.didSeeUrlToWaitFor then
      { window := w1
        stdout := [w1.svpncookie]
        exitCode := if !cfg.keepOpen then some 0 else none }
    else
      { window := w1, stdout := [], exitCode := none }
  else
    { window := w, stdout := [], exitCode := none }

/-- The handler `MainWindow::onCookieRemoved` (mainwindow.cpp, lines 99-105). -/
def onCookieRemoved (_cfg : Config) (w : MainWindow) (cookie : QNetworkCookie) : Effect :=
  if cookie.name = "SVPNCOOKIE" then
    { window := { w with svpncookie := "" }, stdout := [], exitCode := none }
  else
    { window := w, stdout := [], exitCode := none }

/-- The handler `MainWindow::handleUrlChange` (mainwindow.cpp, lines 133-153);
`url` is the text `url.toString()`. -/
def handleUrlChange (cfg : Config) (w : MainWindow) (url : String) : Effect :=
  if w.didSeeUrlToWaitFor then
    { window := w, stdout := [], exitCode := none }
  else if cfg.urlToWaitForRegex url then
    let w1 : MainWindow := { w with didSeeUrlToWaitFor := true }
    let hasCookieSet : Bool := !w1.svpncookie.isEmpty
    { window := w1
      stdout := if hasCookieSet then [w1.svpncookie] else []
      exitCode := if !cfg.keepOpen then some (if hasCookieSet then 0 else 1) else none }
  else
    { window := w, stdout := [], exitCode := none }

/-- The handler `MainWindow::closeEvent` (mainwindow.cpp, lines 184-187). -/
def closeEvent (cfg : Config) (w : MainWindow) : Effect :=
  { window := w, stdout := [], exitCode := some (if cfg.keepOpen then 0 else 1) }

/-- The handler `MainWindow::onCertificateError` (mainwindow.cpp, lines 107-131).
The digest, its base64 text and `QSslCertificate::verify` belong to Qt and are
parameters. The result is `some true` when `acceptCertificate()` is called,
`some false` when the handler returns without calling it, and `none` for an empty
chain, on which `constFirst()` is undefined. -/
def onCertificateError {Cert Digest SslError : Type}
    (sha256 : Cert → Digest) (toBase64 : Digest → String)
    (verify : List Cert → String → List SslError)
    (cfg : Config) (certificateChain : List Cert) (host : String) : Option Bool :=
  match certificateChain with
  | [] => none
  | first :: _ =>
    let sha256base64 := toBase64 (sha256 first)
    let hashString := "sha256/" ++ sha256base64
    if cfg.certificateHashToTrust = hashString then
      some true
    else
      let chainWithoutCa := certificateChain.dropLast
      let errors := verify chainWithoutCa host
      if errors.isEmpty then some true else some false

/-- The signals connected to the handlers in the constructor, and the close event. -/
inductive Event where
  | cookieAdded (cookie : QNetworkCookie)
  | cookieRemoved (cookie : QNetworkCookie)
  | urlChanged (url : String)
  | closed
deriving DecidableEq, Repr

/-- Delivery of one event to its handler. -/
def dispatch (cfg : Config) (w : MainWindow) : Event → Effect
  | .cookieAdded c => onCookieAdded cfg w c
  | .cookieRemoved c => onCookieRemoved cfg w c
  | .urlChanged u => handleUrlChange cfg w u
  | .closed => closeEvent cfg w

/-- The record of a run: final members, all lines written, all exit requests in
the order in which they were made. -/
structure Trace where
  window : MainWindow
  stdout : List String
  exits : List Int
deriving DecidableEq, Repr

/-- Delivery of a finite sequence of events, one after the other, every event
being delivered whether or not an exit was requested before it. -/
def run (cfg : Config) (w : MainWindow) : List Event → Trace
  | [] => { window := w, stdout := [], exits := [] }
  | e :: es =>
    let r := dispatch cfg w e
    let t := run cfg r.window es
    { window := t.window
      stdout := r.stdout ++ t.stdout
      exits := r.exitCode.toList ++ t.exits }

/-- The exit code of the process, taken as the code of the first exit request. -/
def processExitCode (t : Trace) : Option Int :=
  t.exits.head?

/-- Delivery of events up to and including the first handler call that requests
an exit; the events after it are not delivered. -/
def runUntilExit (cfg : Config) (w : MainWindow) : List Event → Effect
  | [] => { window := w, stdout := [], exitCode := none }
  | e :: es =>
    let r := dispatch cfg w e
    match r.exitCode with
    | some _ => r
    | none =>
      let t := runUntilExit cfg r.window es
      { window := t.window, stdout := r.stdout ++ t.stdout, exitCode := t.exitCode }

/-- The effect of one event on the cookie named SVPNCOOKIE that is currently held
by the browser, as the event itself tells: adding one makes its value current,
removing one leaves none, any other event changes nothing. -/
def noteEvent (current : Option String) : Event → Option String
  | .cookieAdded c => if c.name = "SVPNCOOKIE" then some c.value else current
  | .cookieRemoved c => if c.name = "SVPNCOOKIE" then none else current
  | _ => current

/-- The value of the most recently added cookie named SVPNCOOKIE that has not been
removed since, read off the event sequence alone. -/
def lastSvpnCookie (events : List Event) : Option String :=
  events.foldl noteEvent none

/-- Whether an event is the addition of a cookie named SVPNCOOKIE. -/
def isSvpnAdded : Event → Bool
  | .cookieAdded c => decide (c.name = "SVPNCOOKIE")
  | _ => false

/-- The string the handlers keep in `svpncookie` when the browser holds the given
SVPNCOOKIE value, and when it holds none. -/
def storedFor : Option String → String
  | some v => "SVPNCOOKIE=" ++ v
  | none => ""

/-- A configuration used to evaluate the handlers on concrete inputs: the window is
not kept open, the pattern matches the portal landing page only, no hash is trusted. -/
def sampleConfig : Config :=
  { keepOpen := false
    urlToWaitForRegex := fun s => decide (s = "https://vpn.example/sslvpn/portal.html")
    certificateHashToTrust := "" }

/-- The same configuration with the window kept open. -/
def sampleConfigKeepOpen : Config :=
  { sampleConfig with keepOpen := true }

/-- A URL matched by the pattern of `sampleConfig`. -/
def sampleUrl : String := "https://vpn.example/sslvpn/portal.html"

/-- A session cookie as the portal sets it. -/
def sampleCookie : QNetworkCookie := { name := "SVPNCOOKIE", value := "abc123" }

/-- A stand-in digest for evaluating `onCertificateError`: certificates are numbers
and the digest of a certificate is the number itself. -/
def sampleSha256 (cert : Nat) : Nat := cert

/-- A stand-in base64 text of a digest. -/
def sampleToBase64 (digest : Nat) : String :=
  if digest = 7 then "Bw==" else "AA=="

/-- A stand-in chain verification: only the chain made of certificate 7, presented
by the host vpn.example, verifies without errors. -/
def sampleVerify (chain : List Nat) (host : String) : List Unit :=
  if chain = [7] ∧ host = "vpn.example" then [] else [()]

/-! ## Strings -/

theorem cookie_string_eq (name value : String) (h : name = "SVPNCOOKIE") :
    name ++ "=" ++ value = "SVPNCOOKIE=" ++ value := by
  subst h
  rw [String.append_assoc]
  rfl

theorem cookie_string_ne_empty (value : String) : "SVPNCOOKIE=" ++ value ≠ "" := by
  intro h
  have hlen := congrArg String.length h
  rw [String.length_append] at hlen
  have h11 : "SVPNCOOKIE=".length = 11 := by decide
  have h0 : "".length = 0 := by decide
  omega

theorem isEmpty_eq_decide (s : String) : s.isEmpty = decide (s = "") := by
  by_cases h : s = ""
  · simp [h, (String.isEmpty_iff "").2 rfl]
  · have : ¬ (s.isEmpty = true) := fun hs => h ((String.isEmpty_iff s).1 hs)
    simp [h, this]

/-! ## Single handler calls -/

theorem onCookieAdded_svpn (cfg : Config) (w : MainWindow) (c : QNetworkCookie)
    (hc : c.name = "SVPNCOOKIE") :
    onCookieAdded cfg w c =
      { window := { w with svpncookie := "SVPNCOOKIE=" ++ c.value }
        stdout := if w.didSeeUrlToWaitFor then ["SVPNCOOKIE=" ++ c.value] else []
        exitCode := if w.didSeeUrlToWaitFor && !cfg.keepOpen then some 0 else none } := by
  have hs := cookie_string_eq c.name c.value hc
  cases hd : w.didSeeUrlToWaitFor <;> simp [onCookieAdded, hc, hd, hs]

theorem onCookieAdded_other (cfg : Config) (w : MainWindow) (c : QNetworkCookie)
    (hc : c.name ≠ "SVPNCOOKIE") :
    onCookieAdded cfg w c = { window := w, stdout := [], exitCode := none } := by
  simp [onCookieAdded, hc]

theorem onCookieRemoved_svpn (cfg : Config) (w : MainWindow) (c : QNetworkCookie)
    (hc : c.name = "SVPNCOOKIE") :
    onCookieRemoved cfg w c =
      { window := { w with svpncookie := "" }, stdout := [], exitCode := none } := by
  simp [onCookieRemoved, hc]

theorem onCookieRemoved_other (cfg : Config) (w : MainWindow) (c : QNetworkCookie)
    (hc : c.name ≠ "SVPNCOOKIE") :
    onCookieRemoved cfg w c = { window := w, stdout := [], exitCode := none } := by
  simp [onCookieRemoved, hc]

theorem handleUrlChange_seen (cfg : Config) (w : MainWindow) (u : String)
    (hd : w.didSeeUrlToWaitFor = true) :
    handleUrlChange cfg w u = { window := w, stdout := [], exitCode := none } := by
  simp [handleUrlChange, hd]

theorem handleUrlChange_no_match (cfg : Config) (w : MainWindow) (u : String)
    (hu : cfg.urlToWaitForRegex u = false) :
    handleUrlChange cfg w u = { window := w, stdout := [], exitCode := none } := by
  simp [handleUrlChange, hu]

theorem handleUrlChange_match_cookie (cfg : Config) (w : MainWindow) (u : String)
    (hd : w.didSeeUrlToWaitFor = false) (hu : cfg.urlToWaitForRegex u = true)
    (hs : w.svpncookie ≠ "") :
    handleUrlChange cfg w u =
      { window := { w with didSeeUrlToWaitFor := true }
        stdout := [w.svpncookie]
        exitCode := if cfg.keepOpen then none else some 0 } := by
  cases hk : cfg.keepOpen <;> simp [handleUrlChange, hd, hu, hs, hk, isEmpty_eq_decide]

theorem handleUrlChange_match_empty (cfg : Config) (w : MainWindow) (u : String)
    (hd : w.didSeeUrlToWaitFor = false) (hu : cfg.urlToWaitForRegex u = true)
    (hs : w.svpncookie = "") :
    handleUrlChange cfg w u =
      { window := { w with didSeeUrlToWaitFor := true }
        stdout := []
        exitCode := if cfg.keepOpen then none else some 1 } := by
  cases hk : cfg.keepOpen <;> simp [handleUrlChange, hd, hu, hs, hk, isEmpty_eq_decide]

/-! ## Claims about single calls and short call sequences -/

/-- C1. Cookie before target URL: from the initial state with keepOpen false,
onCookieAdded with a cookie named SVPNCOOKIE prints nothing and requests no exit,
and a following handleUrlChange with a matching URL writes exactly the line
"SVPNCOOKIE=" followed by the cookie value and requests exit with code 0. -/
theorem cookie_before_target_url (cfg : Config) (c : QNetworkCookie) (u : String)
    (hk : cfg.keepOpen = false) (hc : c.name = "SVPNCOOKIE")
    (hu : cfg.urlToWaitForRegex u = true) :
    (onCookieAdded cfg initialWindow c).stdout = [] ∧
    (onCookieAdded cfg initialWindow c).exitCode = none ∧
    (handleUrlChange cfg (onCookieAdded cfg initialWindow c).window u).stdout
      = ["SVPNCOOKIE=" ++ c.value] ∧
    (handleUrlChange cfg (onCookieAdded cfg initialWindow c).window u).exitCode
      = some 0 := by
  rw [onCookieAdded_svpn cfg initialWindow c hc]
  have hne := cookie_string_ne_empty c.value
  rw [handleUrlChange_match_cookie cfg _ u rfl hu hne]
  simp [initialWindow, hk]

theorem cookie_before_target_url_witness :
    (sampleConfig.keepOpen = false ∧ sampleCookie.name = "SVPNCOOKIE" ∧
      sampleConfig.urlToWaitForRegex sampleUrl = true) ∧
    (onCookieAdded sampleConfig initialWindow sampleCookie).stdout = [] ∧
    (onCookieAdded sampleConfig initialWindow sampleCookie).exitCode = none ∧
    (handleUrlChange sampleConfig
        (onCookieAdded sampleConfig initialWindow sampleCookie).window sampleUrl).stdout
      = ["SVPNCOOKIE=abc123"] ∧
    (handleUrlChange sampleConfig
        (onCookieAdded sampleConfig initialWindow sampleCookie).window sampleUrl).exitCode
      = some 0 :=
  ⟨by decide,
    cookie_before_target_url sampleConfig sampleCookie sampleUrl rfl rfl (by decide)⟩

/-- C3. Target URL reached without a cookie: in a state with didSeeUrlToWaitFor
false and an empty stored cookie, with keepOpen false, handleUrlChange with a
matching URL writes nothing to standard output, requests exit with code 1 and sets
didSeeUrlToWaitFor to true. -/
theorem target_url_without_cookie (cfg : Config) (w : MainWindow) (u : String)
    (hd : w.didSeeUrlToWaitFor = false) (hs : w.svpncookie = "")
    (hk : cfg.keepOpen = false) (hu : cfg.urlToWaitForRegex u = true) :
    (handleUrlChange cfg w u).stdout = [] ∧
    (handleUrlChange cfg w u).exitCode = some 1 ∧
    (handleUrlChange cfg w u).window.didSeeUrlToWaitFor = true := by
  rw [handleUrlChange_match_empty cfg w u hd hu hs]
  simp [hk]

theorem target_url_without_cookie_witness :
    (initialWindow.didSeeUrlToWaitFor = false ∧ initialWindow.svpncookie = "" ∧
      sampleConfig.keepOpen = false ∧ sampleConfig.urlToWaitForRegex sampleUrl = true) ∧
    (handleUrlChange sampleConfig initialWindow sampleUrl).stdout = [] ∧
    (handleUrlChange sampleConfig initialWindow sampleUrl).exitCode = some 1 ∧
    (handleUrlChange sampleConfig initialWindow sampleUrl).window.didSeeUrlToWaitFor
      = true :=
  ⟨by decide,
    target_url_without_cookie sampleConfig initialWindow sampleUrl rfl rfl rfl (by decide)⟩

/-- C5. Exit code reflects whether a cookie was found: with keepOpen false, whenever
a call of onCookieAdded, handleUrlChange or closeEvent requests an exit with code c,
then c is 0 exactly when that call wrote a line (the stored cookie string), c is 1
otherwise and then nothing was written; closeEvent prints nothing and requests
code 1; so only the codes 0 and 1 are requested. -/
theorem exit_code_reflects_cookie (cfg : Config) (w : MainWindow) (hk : cfg.keepOpen = false) :
    (∀ (cookie : QNetworkCookie) (c : Int),
      (onCookieAdded cfg w cookie).exitCode = some c →
        (c = 0 ↔ (onCookieAdded cfg w cookie).stdout
                    = [(onCookieAdded cfg w cookie).window.svpncookie]) ∧
        (c ≠ 0 → c = 1 ∧ (onCookieAdded cfg w cookie).stdout = [])) ∧
    (∀ (u : String) (c : Int),
      (handleUrlChange cfg w u).exitCode = some c →
        (c = 0 ↔ (handleUrlChange cfg w u).stdout
                    = [(handleUrlChange cfg w u).window.svpncookie]) ∧
        (c ≠ 0 → c = 1 ∧ (handleUrlChange cfg w u).stdout = [])) ∧
    ((closeEvent cfg w).stdout = [] ∧ (closeEvent cfg w).exitCode = some 1) ∧
    (∀ (e : Event) (c : Int), (dispatch cfg w e).exitCode = some c → c = 0 ∨ c = 1) := by
  refine ⟨?_, ?_, ?_, ?_⟩
  · intro cookie c h
    by_cases hc : cookie.name = "SVPNCOOKIE"
    · rw [onCookieAdded_svpn cfg w cookie hc] at h ⊢
      cases hd : w.didSeeUrlToWaitFor <;> simp [hd, hk] at h ⊢
      omega
    · rw [onCookieAdded_other cfg w cookie hc] at h
      simp at h
  · intro u c h
    cases hd : w.didSeeUrlToWaitFor
    · cases hu : cfg.urlToWaitForRegex u
      · rw [handleUrlChange_no_match cfg w u hu] at h
        simp at h
      · by_cases hs : w.svpncookie = ""
        · rw [handleUrlChange_match_empty cfg w u hd hu hs] at h ⊢
          simp [hk] at h ⊢
          omega
        · rw [handleUrlChange_match_cookie cfg w u hd hu hs] at h ⊢
          simp [hk] at h ⊢
          omega
    · rw [handleUrlChange_seen cfg w u hd] at h
      simp at h
  · simp [closeEvent, hk]
  · intro e c h
    cases e with
    | cookieAdded cookie =>
      by_cases hc : cookie.name = "SVPNCOOKIE"
      · simp only [dispatch] at h
        rw [onCookieAdded_svpn cfg w cookie hc] at h
        cases hd : w.didSeeUrlToWaitFor <;> simp [hd, hk] at h
        omega
      · simp [dispatch, onCookieAdded_other cfg w cookie hc] at h
    | cookieRemoved cookie =>
      by_cases hc : cookie.name = "SVPNCOOKIE" <;> simp [dispatch, onCookieRemoved, hc] at h
    | urlChanged u =>
      simp only [dispatch] at h
      cases hd : w.didSeeUrlToWaitFor
      · cases hu : cfg.urlToWaitForRegex u
        · rw [handleUrlChange_no_match cfg w u hu] at h
          simp at h
        · by_cases hs : w.svpncookie = ""
          · rw [handleUrlChange_match_empty cfg w u hd hu hs] at h
            simp [hk] at h
            omega
          · rw [handleUrlChange_match_cookie cfg w u hd hu hs] at h
            simp [hk] at h
            omega
      · rw [handleUrlChange_seen cfg w u hd] at h
        simp at h
    | closed =>
      simp [dispatch, closeEvent, hk] at h
      omega

theorem exit_code_reflects_cookie_witness :
    sampleConfig.keepOpen = false ∧
    ((onCookieAdded sampleConfig { svpncookie := "", didSeeUrlToWaitFor := true }
        sampleCookie).exitCode = some 0 ∧
      (onCookieAdded sampleConfig { svpncookie := "", didSeeUrlToWaitFor := true }
        sampleCookie).stdout = ["SVPNCOOKIE=abc123"]) ∧
    ((closeEvent sampleConfig { svpncookie := "", didSeeUrlToWaitFor := true }).stdout = [] ∧
      (closeEvent sampleConfig { svpncookie := "", didSeeUrlToWaitFor := true }).exitCode
        = some 1) :=
  ⟨rfl,
    ⟨by decide,
      ((exit_code_reflects_cookie sampleConfig { svpncookie := "", didSeeUrlToWaitFor := true }
        rfl).1 sampleCookie 0 (by decide)).1.1 rfl⟩,
    (exit_code_reflects_cookie sampleConfig { svpncookie := "", didSeeUrlToWaitFor := true }
      rfl).2.2.1⟩

/-- C7. Removal undoes capture: in a state with didSeeUrlToWaitFor false,
onCookieAdded with a cookie named SVPNCOOKIE followed by onCookieRemoved with a
cookie named SVPNCOOKIE leaves the stored cookie empty, and a following
handleUrlChange with a matching URL prints nothing and, with keepOpen false,
requests exit code 1. -/
theorem removal_undoes_capture (cfg : Config) (w : MainWindow)
    (added removed : QNetworkCookie) (u : String)
    (hd : w.didSeeUrlToWaitFor = false)
    (ha : added.name = "SVPNCOOKIE") (hr : removed.name = "SVPNCOOKIE")
    (hu : cfg.urlToWaitForRegex u = true) :
    (onCookieRemoved cfg (onCookieAdded cfg w added).window removed).window.svpncookie = "" ∧
    (handleUrlChange cfg
        (onCookieRemoved cfg (onCookieAdded cfg w added).window removed).window u).stdout
      = [] ∧
    (cfg.keepOpen = false →
      (handleUrlChange cfg
          (onCookieRemoved cfg (onCookieAdded cfg w added).window removed).window u).exitCode
        = some 1) := by
  rw [onCookieAdded_svpn cfg w added ha, onCookieRemoved_svpn cfg _ removed hr]
  rw [handleUrlChange_match_empty cfg { svpncookie := "", didSeeUrlToWaitFor := _ } u hd hu rfl]
  refine ⟨rfl, rfl, ?_⟩
  intro hk
  simp [hk]

theorem removal_undoes_capture_witness :
    (initialWindow.didSeeUrlToWaitFor = false ∧ sampleCookie.name = "SVPNCOOKIE" ∧
      sampleConfig.urlToWaitForRegex sampleUrl = true ∧ sampleConfig.keepOpen = false) ∧
    (onCookieRemoved sampleConfig
        (onCookieAdded sampleConfig initialWindow sampleCookie).window
        sampleCookie).window.svpncookie = "" ∧
    (handleUrlChange sampleConfig
        (onCookieRemoved sampleConfig
          (onCookieAdded sampleConfig initialWindow sampleCookie).window
          sampleCookie).window sampleUrl).stdout = [] ∧
    (handleUrlChange sampleConfig
        (onCookieRemoved sampleConfig
          (onCookieAdded sampleConfig initialWindow sampleCookie).window
          sampleCookie).window sampleUrl).exitCode = some 1 :=
  have h := removal_undoes_capture sampleConfig initialWindow sampleCookie sampleCookie
    sampleUrl rfl rfl rfl (by decide)
  ⟨by decide, h.1, h.2.1, h.2.2 rfl⟩

/-! ## Certificate errors -/

theorem hash_string_ne_empty (text : String) : "sha256/" ++ text ≠ "" := by
  intro h
  have hlen := congrArg String.length h
  rw [String.length_append] at hlen
  have h7 : "sha256/".length = 7 := by decide
  have h0 : "".length = 0 := by decide
  omega

/-- C6. Certificate error resolution: with the digest, the base64 encoding and the
chain verification given, for every non-empty chain onCertificateError runs to
completion and accepts the certificate if and only if certificateHashToTrust equals
"sha256/" followed by the base64 text of the digest of the first certificate, or
verification of the chain without its last element against the host returns no
errors; otherwise the certificate is not accepted. When certificateHashToTrust is
empty the comparison fails and acceptance is decided by verification alone. -/
theorem certificate_error_resolution {Cert Digest SslError : Type}
    (sha256 : Cert → Digest) (toBase64 : Digest → String)
    (verify : List Cert → String → List SslError)
    (cfg : Config) (first : Cert) (rest : List Cert) (host : String) :
    (onCertificateError sha256 toBase64 verify cfg (first :: rest) host = some true ↔
      (cfg.certificateHashToTrust = "sha256/" ++ toBase64 (sha256 first) ∨
        verify (first :: rest).dropLast host = [])) ∧
    (onCertificateError sha256 toBase64 verify cfg (first :: rest) host ≠ some true →
      onCertificateError sha256 toBase64 verify cfg (first :: rest) host = some false) ∧
    (cfg.certificateHashToTrust = "" →
      cfg.certificateHashToTrust ≠ "sha256/" ++ toBase64 (sha256 first) ∧
      (onCertificateError sha256 toBase64 verify cfg (first :: rest) host = some true ↔
        verify (first :: rest).dropLast host = [])) := by
  have hne := hash_string_ne_empty (toBase64 (sha256 first))
  by_cases hh : cfg.certificateHashToTrust = "sha256/" ++ toBase64 (sha256 first)
  · refine ⟨by simp [onCertificateError, hh], by simp [onCertificateError, hh], ?_⟩
    intro he
    rw [he] at hh
    exact absurd hh.symm hne
  · cases hv : verify (first :: rest).dropLast host with
    | nil => simp [onCertificateError, hh, hv]
    | cons x xs => simp [onCertificateError, hh, hv]

theorem certificate_error_resolution_witness :
    sampleConfig.certificateHashToTrust = "" ∧
    onCertificateError sampleSha256 sampleToBase64 sampleVerify sampleConfig [7, 1]
      "vpn.example" = some true ∧
    onCertificateError sampleSha256 sampleToBase64 sampleVerify sampleConfig [7, 1]
      "other.example" = some false :=
  ⟨rfl,
    ((certificate_error_resolution sampleSha256 sampleToBase64 sampleVerify sampleConfig
      7 [1] "vpn.example").2.2 rfl).2.2 (by decide),
    (certificate_error_resolution sampleSha256 sampleToBase64 sampleVerify sampleConfig
      7 [1] "other.example").2.1 (by decide)⟩

/-! ## Event sequences -/

theorem run_append (cfg : Config) (w : MainWindow) (xs ys : List Event) :
    run cfg w (xs ++ ys) =
      { window := (run cfg (run cfg w xs).window ys).window
        stdout := (run cfg w xs).stdout ++ (run cfg (run cfg w xs).window ys).stdout
        exits := (run cfg w xs).exits ++ (run cfg (run cfg w xs).window ys).exits } := by
  induction xs generalizing w with
  | nil => simp [run]
  | cons e es ih => simp [run, ih, List.append_assoc]

theorem dispatch_keeps_seen (cfg : Config) (w : MainWindow) (e : Event)
    (hd : w.didSeeUrlToWaitFor = true) :
    (dispatch cfg w e).window.didSeeUrlToWaitFor = true := by
  cases e with
  | cookieAdded c =>
    by_cases hc : c.name = "SVPNCOOKIE"
    · simp [dispatch, onCookieAdded_svpn cfg w c hc, hd]
    · simp [dispatch, onCookieAdded_other cfg w c hc, hd]
  | cookieRemoved c =>
    by_cases hc : c.name = "SVPNCOOKIE" <;> simp [dispatch, onCookieRemoved, hc, hd]
  | urlChanged u => simp [dispatch, handleUrlChange_seen cfg w u hd, hd]
  | closed => simp [dispatch, closeEvent, hd]

theorem run_keeps_seen (cfg : Config) (w : MainWindow) (events : List Event)
    (hd : w.didSeeUrlToWaitFor = true) :
    (run cfg w events).window.didSeeUrlToWaitFor = true := by
  induction events generalizing w with
  | nil => simpa [run] using hd
  | cons e es ih =>
    simp only [run]
    exact ih _ (dispatch_keeps_seen cfg w e hd)

theorem dispatch_silent_before_seen (cfg : Config) (w : MainWindow) (e : Event)
    (hd : (dispatch cfg w e).window.didSeeUrlToWaitFor = false) :
    (dispatch cfg w e).stdout = [] := by
  cases e with
  | cookieAdded c =>
    by_cases hc : c.name = "SVPNCOOKIE"
    · simp only [dispatch] at hd ⊢
      rw [onCookieAdded_svpn cfg w c hc] at hd ⊢
      simp at hd
      simp [hd]
    · simp [dispatch, onCookieAdded_other cfg w c hc]
  | cookieRemoved c =>
    by_cases hc : c.name = "SVPNCOOKIE" <;> simp [dispatch, onCookieRemoved, hc]
  | urlChanged u =>
    simp only [dispatch] at hd ⊢
    cases hs : w.didSeeUrlToWaitFor
    · cases hu : cfg.urlToWaitForRegex u
      · simp [handleUrlChange_no_match cfg w u hu]
      · simp [handleUrlChange, hs, hu] at hd
    · simp [handleUrlChange_seen cfg w u hs]
  | closed => simp [dispatch, closeEvent]

theorem run_silent_before_seen (cfg : Config) (w : MainWindow) (events : List Event)
    (hd : (run cfg w events).window.didSeeUrlToWaitFor = false) :
    (run cfg w events).stdout = [] := by
  induction events generalizing w with
  | nil => simp [run]
  | cons e es ih =>
    simp only [run] at hd ⊢
    have hstep : (dispatch cfg w e).window.didSeeUrlToWaitFor = false := by
      cases h : (dispatch cfg w e).window.didSeeUrlToWaitFor
      · rfl
      · rw [run_keeps_seen cfg _ es h] at hd
        exact absurd hd (by decide)
    rw [dispatch_silent_before_seen cfg w e hstep, ih _ hd]
    rfl

theorem dispatch_tracks (cfg : Config) (w : MainWindow) (current : Option String)
    (e : Event) (hw : w.svpncookie = storedFor current) :
    (dispatch cfg w e).window.svpncookie = storedFor (noteEvent current e) := by
  cases e with
  | cookieAdded c =>
    by_cases hc : c.name = "SVPNCOOKIE"
    · simp [dispatch, onCookieAdded_svpn cfg w c hc, noteEvent, hc, storedFor]
    · simp [dispatch, onCookieAdded_other cfg w c hc, noteEvent, hc, hw]
  | cookieRemoved c =>
    by_cases hc : c.name = "SVPNCOOKIE"
    · simp [dispatch, onCookieRemoved, noteEvent, hc, storedFor]
    · simp [dispatch, onCookieRemoved, noteEvent, hc, hw]
  | urlChanged u =>
    simp only [dispatch, noteEvent]
    cases hs : w.didSeeUrlToWaitFor
    · cases hu : cfg.urlToWaitForRegex u
      · simp [handleUrlChange_no_match cfg w u hu, hw]
      · simp [handleUrlChange, hs, hu, hw]
    · simp [handleUrlChange_seen cfg w u hs, hw]
  | closed => simp [dispatch, closeEvent, noteEvent, hw]

theorem run_tracks (cfg : Config) (w : MainWindow) (current : Option String)
    (events : List Event) (hw : w.svpncookie = storedFor current) :
    (run cfg w events).window.svpncookie = storedFor (events.foldl noteEvent current) := by
  induction events generalizing w current with
  | nil => simpa [run] using hw
  | cons e es ih =>
    simp only [run, List.foldl_cons]
    exact ih _ _ (dispatch_tracks cfg w current e hw)

theorem dispatch_line (cfg : Config) (w : MainWindow) (current : Option String)
    (e : Event) (hw : w.svpncookie = storedFor current) (line : String)
    (hl : line ∈ (dispatch cfg w e).stdout) :
    ∃ v, noteEvent current e = some v ∧ line = "SVPNCOOKIE=" ++ v := by
  cases e with
  | cookieAdded c =>
    by_cases hc : c.name = "SVPNCOOKIE"
    · simp only [dispatch] at hl
      rw [onCookieAdded_svpn cfg w c hc] at hl
      cases hs : w.didSeeUrlToWaitFor
      · simp [hs] at hl
      · simp [hs] at hl
        exact ⟨c.value, by simp [noteEvent, hc], hl⟩
    · simp [dispatch, onCookieAdded_other cfg w c hc] at hl
  | cookieRemoved c =>
    by_cases hc : c.name = "SVPNCOOKIE" <;> simp [dispatch, onCookieRemoved, hc] at hl
  | urlChanged u =>
    simp only [dispatch] at hl
    cases hs : w.didSeeUrlToWaitFor
    · cases hu : cfg.urlToWaitForRegex u
      · simp [handleUrlChange_no_match cfg w u hu] at hl
      · by_cases he : w.svpncookie = ""
        · simp [handleUrlChange_match_empty cfg w u hs hu he] at hl
        · simp [handleUrlChange_match_cookie cfg w u hs hu he] at hl
          cases current with
          | none => exact absurd hw he
          | some v => exact ⟨v, rfl, by rw [hl, hw]; rfl⟩
    · simp [handleUrlChange_seen cfg w u hs] at hl
  | closed => simp [dispatch, closeEvent] at hl

/-- C8. The URL-seen flag is a latch: no handler call, and so no sequence of handler
calls, changes didSeeUrlToWaitFor from true to false; in a state with the flag true
handleUrlChange leaves the state unchanged, writes nothing and requests no exit for
every URL, and so it does in a state with the flag false for every URL that does not
match urlToWaitForRegex. -/
theorem url_seen_flag_is_latch (cfg : Config) (w : MainWindow) :
    (w.didSeeUrlToWaitFor = true →
      (∀ e : Event, (dispatch cfg w e).window.didSeeUrlToWaitFor = true) ∧
      (∀ events : List Event, (run cfg w events).window.didSeeUrlToWaitFor = true) ∧
      (∀ u : String,
        handleUrlChange cfg w u = { window := w, stdout := [], exitCode := none })) ∧
    (w.didSeeUrlToWaitFor = false →
      ∀ u : String, cfg.urlToWaitForRegex u = false →
        handleUrlChange cfg w u = { window := w, stdout := [], exitCode := none }) := by
  refine ⟨fun hd => ⟨?_, ?_, ?_⟩, ?_⟩
  · exact fun e => dispatch_keeps_seen cfg w e hd
  · exact fun events => run_keeps_seen cfg w events hd
  · exact fun u => handleUrlChange_seen cfg w u hd
  · exact fun _ u hu => handleUrlChange_no_match cfg w u hu

theorem url_seen_flag_is_latch_witness :
    (handleUrlChange sampleConfig { svpncookie := "SVPNCOOKIE=abc123", didSeeUrlToWaitFor := true }
        sampleUrl
      = { window := { svpncookie := "SVPNCOOKIE=abc123", didSeeUrlToWaitFor := true }
          stdout := [], exitCode := none }) ∧
    (run sampleConfig { svpncookie := "SVPNCOOKIE=abc123", didSeeUrlToWaitFor := true }
        [Event.cookieRemoved sampleCookie, Event.urlChanged "about:blank",
          Event.closed]).window.didSeeUrlToWaitFor = true ∧
    (sampleConfig.urlToWaitForRegex "about:blank" = false ∧
      handleUrlChange sampleConfig initialWindow "about:blank"
        = { window := initialWindow, stdout := [], exitCode := none }) :=
  ⟨((url_seen_flag_is_latch sampleConfig
        { svpncookie := "SVPNCOOKIE=abc123", didSeeUrlToWaitFor := true }).1 rfl).2.2 sampleUrl,
    ((url_seen_flag_is_latch sampleConfig
        { svpncookie := "SVPNCOOKIE=abc123", didSeeUrlToWaitFor := true }).1 rfl).2.1 _,
    by decide,
    (url_seen_flag_is_latch sampleConfig initialWindow).2 rfl "about:blank" (by decide)⟩

/-- C9. Output provenance: for every finite event sequence from the initial state,
nothing has been written to standard output as long as didSeeUrlToWaitFor is still
false; every line written by the next handler call is exactly "SVPNCOOKIE=" followed
by the value of the most recently added cookie named SVPNCOOKIE that has not been
removed since; and adding or removing a cookie with any other name changes neither
the state, nor the output, nor the exit request. -/
theorem output_provenance (cfg : Config) :
    (∀ events : List Event,
      (run cfg initialWindow events).window.didSeeUrlToWaitFor = false →
        (run cfg initialWindow events).stdout = []) ∧
    (∀ (events : List Event) (e : Event) (line : String),
      line ∈ (dispatch cfg (run cfg initialWindow events).window e).stdout →
        ∃ v, lastSvpnCookie (events ++ [e]) = some v ∧ line = "SVPNCOOKIE=" ++ v) ∧
    (∀ (w : MainWindow) (c : QNetworkCookie), c.name ≠ "SVPNCOOKIE" →
      onCookieAdded cfg w c = { window := w, stdout := [], exitCode := none } ∧
      onCookieRemoved cfg w c = { window := w, stdout := [], exitCode := none }) := by
  refine ⟨?_, ?_, ?_⟩
  · exact fun events hd => run_silent_before_seen cfg initialWindow events hd
  · intro events e line hl
    have hw := run_tracks cfg initialWindow none events rfl
    have h := dispatch_line cfg _ _ e hw line hl
    simpa [lastSvpnCookie, List.foldl_append] using h
  · exact fun w c hc => ⟨onCookieAdded_other cfg w c hc, onCookieRemoved_other cfg w c hc⟩

theorem output_provenance_witness :
    (run sampleConfig initialWindow
        [Event.cookieAdded sampleCookie, Event.urlChanged "about:blank"]).stdout = [] ∧
    (∃ v, lastSvpnCookie
          [Event.cookieAdded { name := "SVPNCOOKIE", value := "old" },
            Event.cookieRemoved sampleCookie, Event.cookieAdded sampleCookie,
            Event.urlChanged sampleUrl] = some v ∧
        "SVPNCOOKIE=abc123" = "SVPNCOOKIE=" ++ v) ∧
    onCookieAdded sampleConfig initialWindow { name := "csrftoken", value := "x" }
      = { window := initialWindow, stdout := [], exitCode := none } :=
  ⟨(output_provenance sampleConfig).1 _ (by decide),
    (output_provenance sampleConfig).2.1
      [Event.cookieAdded { name := "SVPNCOOKIE", value := "old" },
        Event.cookieRemoved sampleCookie, Event.cookieAdded sampleCookie]
      (Event.urlChanged sampleUrl) "SVPNCOOKIE=abc123" (by decide),
    ((output_provenance sampleConfig).2.2 initialWindow
      { name := "csrftoken", value := "x" } (by decide)).1⟩

/-- C10. An empty cookie value still counts as a found cookie: after onCookieAdded
with a cookie named SVPNCOOKIE whose value is the empty string the stored cookie
string is "SVPNCOOKIE=", which is not empty, so a following handleUrlChange with a
matching URL (didSeeUrlToWaitFor false, keepOpen false) prints the line "SVPNCOOKIE="
and requests exit code 0; and after any event sequence from the initial state the
stored cookie string is empty only if no SVPNCOOKIE has been added since the start
or since the last removal. -/
theorem empty_value_counts_as_found (cfg : Config) :
    (∀ (w : MainWindow) (c : QNetworkCookie) (u : String),
      cfg.keepOpen = false → w.didSeeUrlToWaitFor = false →
      c.name = "SVPNCOOKIE" → c.value = "" → cfg.urlToWaitForRegex u = true →
        (onCookieAdded cfg w c).window.svpncookie = "SVPNCOOKIE=" ∧
        (onCookieAdded cfg w c).window.svpncookie ≠ "" ∧
        (handleUrlChange cfg (onCookieAdded cfg w c).window u).stdout = ["SVPNCOOKIE="] ∧
        (handleUrlChange cfg (onCookieAdded cfg w c).window u).exitCode = some 0) ∧
    (∀ events : List Event,
      (run cfg initialWindow events).window.svpncookie = "" →
        lastSvpnCookie events = none) := by
  refine ⟨?_, ?_⟩
  · intro w c u hk hd hc hv hu
    have hne : ("SVPNCOOKIE=" : String) ≠ "" := by decide
    have hv2 : "SVPNCOOKIE=" ++ c.value = "SVPNCOOKIE=" := by rw [hv]; rfl
    rw [onCookieAdded_svpn cfg w c hc, hv2]
    rw [handleUrlChange_match_cookie cfg { svpncookie := "SVPNCOOKIE=", didSeeUrlToWaitFor := _ }
      u hd hu hne]
    simp [hk]
  · intro events he
    have hw := run_tracks cfg initialWindow none events rfl
    rw [he] at hw
    cases hl : lastSvpnCookie events with
    | none => rfl
    | some v =>
      unfold lastSvpnCookie at hl
      rw [hl] at hw
      exact absurd hw.symm (cookie_string_ne_empty v)

theorem empty_value_counts_as_found_witness :
    (handleUrlChange sampleConfig
        (onCookieAdded sampleConfig initialWindow { name := "SVPNCOOKIE", value := "" }).window
        sampleUrl).stdout = ["SVPNCOOKIE="] ∧
    (handleUrlChange sampleConfig
        (onCookieAdded sampleConfig initialWindow { name := "SVPNCOOKIE", value := "" }).window
        sampleUrl).exitCode = some 0 ∧
    lastSvpnCookie [Event.cookieAdded sampleCookie, Event.cookieRemoved sampleCookie] = none :=
  ⟨((empty_value_counts_as_found sampleConfig).1 initialWindow
      { name := "SVPNCOOKIE", value := "" } sampleUrl rfl rfl rfl rfl (by decide)).2.2.1,
    ((empty_value_counts_as_found sampleConfig).1 initialWindow
      { name := "SVPNCOOKIE", value := "" } sampleUrl rfl rfl rfl rfl (by decide)).2.2.2,
    (empty_value_counts_as_found sampleConfig).2
      [Event.cookieAdded sampleCookie, Event.cookieRemoved sampleCookie] (by decide)⟩

/-! ## Exit requests along a sequence -/

theorem run_before_target (cfg : Config) (w : MainWindow) (events : List Event)
    (hk : cfg.keepOpen = false) (hd : w.didSeeUrlToWaitFor = false)
    (hno : ∀ url, Event.urlChanged url ∈ events → cfg.urlToWaitForRegex url = false) :
    (run cfg w events).window.didSeeUrlToWaitFor = false ∧
    ∀ code ∈ (run cfg w events).exits, code = 1 := by
  induction events generalizing w with
  | nil => simp [run, hd]
  | cons e es ih =>
    have hes : ∀ url, Event.urlChanged url ∈ es → cfg.urlToWaitForRegex url = false :=
      fun url hm => hno url (List.mem_cons_of_mem _ hm)
    have hstep : (dispatch cfg w e).window.didSeeUrlToWaitFor = false ∧
        ∀ code ∈ (dispatch cfg w e).exitCode.toList, code = 1 := by
      cases e with
      | cookieAdded c =>
        by_cases hc : c.name = "SVPNCOOKIE"
        · simp [dispatch, onCookieAdded_svpn cfg w c hc, hd]
        · simp [dispatch, onCookieAdded_other cfg w c hc, hd]
      | cookieRemoved c =>
        by_cases hc : c.name = "SVPNCOOKIE" <;> simp [dispatch, onCookieRemoved, hc, hd]
      | urlChanged u =>
        have hu := hno u (List.mem_cons_self _ _)
        simp [dispatch, handleUrlChange_no_match cfg w u hu, hd]
      | closed => simp [dispatch, closeEvent, hd, hk]
    have hrest := ih (dispatch cfg w e).window hstep.1 hes
    refine ⟨by simpa [run] using hrest.1, ?_⟩
    intro code hcode
    simp only [run, List.mem_append] at hcode
    rcases hcode with h | h
    · exact hstep.2 code h
    · exact hrest.2 code h

theorem head_of_ones (xs ys : List Int) (hx : ∀ code ∈ xs, code = 1) :
    (xs ++ 1 :: ys).head? = some 1 := by
  cases xs with
  | nil => rfl
  | cons x rest => simp [hx x (List.mem_cons_self _ _)]

/-- C2, as the code has it. Cookie after target URL: for every event sequence from
the initial state with keepOpen false in which the first URL matching
urlToWaitForRegex is reached while no SVPNCOOKIE is stored and a cookie named
SVPNCOOKIE is added afterwards, that call of onCookieAdded writes the cookie line and
requests exit code 0, so the line is part of the output; but the first exit request
made by any handler has code 1, so the process exit code so defined is 1. -/
theorem cookie_after_target_url (cfg : Config) (pre mid post : List Event)
    (u : String) (c : QNetworkCookie)
    (hk : cfg.keepOpen = false)
    (hno : ∀ url, Event.urlChanged url ∈ pre → cfg.urlToWaitForRegex url = false)
    (hu : cfg.urlToWaitForRegex u = true)
    (hs : (run cfg initialWindow pre).window.svpncookie = "")
    (hc : c.name = "SVPNCOOKIE") :
    (onCookieAdded cfg (run cfg initialWindow (pre ++ Event.urlChanged u :: mid)).window c).stdout
      = ["SVPNCOOKIE=" ++ c.value] ∧
    (onCookieAdded cfg (run cfg initialWindow (pre ++ Event.urlChanged u :: mid)).window c).exitCode
      = some 0 ∧
    "SVPNCOOKIE=" ++ c.value ∈
      (run cfg initialWindow
        ((pre ++ Event.urlChanged u :: mid) ++ Event.cookieAdded c :: post)).stdout ∧
    processExitCode
      (run cfg initialWindow
        ((pre ++ Event.urlChanged u :: mid) ++ Event.cookieAdded c :: post)) = some 1 := by
  have hpre := run_before_target cfg initialWindow pre hk rfl hno
  have hurl := handleUrlChange_match_empty cfg _ u hpre.1 hu hs
  have hseen : (run cfg initialWindow (pre ++ Event.urlChanged u :: mid)).window.didSeeUrlToWaitFor
      = true := by
    rw [run_append]
    simp only [run, dispatch]
    apply run_keeps_seen
    rw [hurl]
  have hadd := onCookieAdded_svpn cfg
    (run cfg initialWindow (pre ++ Event.urlChanged u :: mid)).window c hc
  refine ⟨by simp [hadd, hseen], by simp [hadd, hseen, hk], ?_, ?_⟩
  · rw [run_append cfg initialWindow (pre ++ Event.urlChanged u :: mid)]
    simp only [run, dispatch]
    simp [hadd, hseen]
  · rw [List.append_assoc, run_append cfg initialWindow pre]
    simp only [processExitCode, List.cons_append, run, dispatch]
    rw [hurl]
    simp only [hk, Bool.false_eq_true, if_false, Option.toList, List.cons_append,
      List.nil_append]
    exact head_of_ones _ _ hpre.2

theorem cookie_after_target_url_witness :
    (sampleConfig.keepOpen = false ∧
      sampleConfig.urlToWaitForRegex "about:blank" = false ∧
      sampleConfig.urlToWaitForRegex sampleUrl = true ∧
      (run sampleConfig initialWindow [Event.urlChanged "about:blank"]).window.svpncookie = "" ∧
      sampleCookie.name = "SVPNCOOKIE") ∧
    "SVPNCOOKIE=abc123" ∈
      (run sampleConfig initialWindow
        [Event.urlChanged "about:blank", Event.urlChanged sampleUrl,
          Event.cookieAdded sampleCookie]).stdout ∧
    processExitCode
      (run sampleConfig initialWindow
        [Event.urlChanged "about:blank", Event.urlChanged sampleUrl,
          Event.cookieAdded sampleCookie]) = some 1 :=
  have h := cookie_after_target_url sampleConfig [Event.urlChanged "about:blank"] [] []
    sampleUrl sampleCookie rfl
    (by intro url hm; simp at hm; subst hm; decide) (by decide) (by decide) rfl
  ⟨by decide, h.2.2.1, h.2.2.2⟩

/-- C2, as the claim states it, fails: with keepOpen false the target URL is reached
while no cookie is stored and the SVPNCOOKIE is added afterwards; the cookie line is
printed, but the first exit request has code 1, not 0. -/
theorem cookie_after_target_url_counterexample :
    sampleConfig.keepOpen = false ∧
    sampleConfig.urlToWaitForRegex sampleUrl = true ∧
    (run sampleConfig initialWindow []).window.svpncookie = "" ∧
    (run sampleConfig initialWindow
        [Event.urlChanged sampleUrl, Event.cookieAdded sampleCookie]).stdout
      = ["SVPNCOOKIE=abc123"] ∧
    (run sampleConfig initialWindow
        [Event.urlChanged sampleUrl, Event.cookieAdded sampleCookie]).exits = [1, 0] ∧
    processExitCode
      (run sampleConfig initialWindow
        [Event.urlChanged sampleUrl, Event.cookieAdded sampleCookie]) ≠ some 0 := by
  decide

/-! ## How many lines are written -/

theorem dispatch_one_line (cfg : Config) (w : MainWindow) (e : Event) :
    (dispatch cfg w e).stdout.length ≤ 1 := by
  cases e with
  | cookieAdded c =>
    by_cases hc : c.name = "SVPNCOOKIE"
    · simp only [dispatch]
      rw [onCookieAdded_svpn cfg w c hc]
      cases w.didSeeUrlToWaitFor <;> simp
    · simp [dispatch, onCookieAdded_other cfg w c hc]
  | cookieRemoved c =>
    by_cases hc : c.name = "SVPNCOOKIE" <;> simp [dispatch, onCookieRemoved, hc]
  | urlChanged u =>
    simp only [dispatch]
    cases hs : w.didSeeUrlToWaitFor
    · cases hu : cfg.urlToWaitForRegex u
      · simp [handleUrlChange_no_match cfg w u hu]
      · by_cases he : w.svpncookie = ""
        · simp [handleUrlChange_match_empty cfg w u hs hu he]
        · simp [handleUrlChange_match_cookie cfg w u hs hu he]
    · simp [handleUrlChange_seen cfg w u hs]
  | closed => simp [dispatch, closeEvent]

theorem dispatch_output_requests_exit (cfg : Config) (w : MainWindow) (e : Event)
    (hk : cfg.keepOpen = false) (hx : (dispatch cfg w e).exitCode = none) :
    (dispatch cfg w e).stdout = [] := by
  cases e with
  | cookieAdded c =>
    by_cases hc : c.name = "SVPNCOOKIE"
    · simp only [dispatch] at hx ⊢
      rw [onCookieAdded_svpn cfg w c hc] at hx ⊢
      cases hs : w.didSeeUrlToWaitFor
      · simp
      · simp [hs, hk] at hx
    · simp [dispatch, onCookieAdded_other cfg w c hc]
  | cookieRemoved c =>
    by_cases hc : c.name = "SVPNCOOKIE" <;> simp [dispatch, onCookieRemoved, hc]
  | urlChanged u =>
    simp only [dispatch] at hx ⊢
    cases hs : w.didSeeUrlToWaitFor
    · cases hu : cfg.urlToWaitForRegex u
      · simp [handleUrlChange_no_match cfg w u hu]
      · by_cases he : w.svpncookie = ""
        · simp [handleUrlChange_match_empty cfg w u hs hu he]
        · simp [handleUrlChange_match_cookie cfg w u hs hu he, hk] at hx
    · simp [handleUrlChange_seen cfg w u hs]
  | closed => simp [dispatch, closeEvent]

theorem runUntilExit_one_line (cfg : Config) (w : MainWindow) (events : List Event)
    (hk : cfg.keepOpen = false) :
    (runUntilExit cfg w events).stdout.length ≤ 1 := by
  induction events generalizing w with
  | nil => simp [runUntilExit]
  | cons e es ih =>
    simp only [runUntilExit]
    cases hx : (dispatch cfg w e).exitCode with
    | some code => exact dispatch_one_line cfg w e
    | none =>
      simp only [dispatch_output_requests_exit cfg w e hk hx, List.nil_append]
      exact ih _

theorem dispatch_seen_lines (cfg : Config) (w : MainWindow) (e : Event)
    (hd : w.didSeeUrlToWaitFor = true) :
    (dispatch cfg w e).stdout.length ≤ if isSvpnAdded e = true then 1 else 0 := by
  cases e with
  | cookieAdded c =>
    by_cases hc : c.name = "SVPNCOOKIE"
    · simp [dispatch, onCookieAdded_svpn cfg w c hc, isSvpnAdded, hc, hd]
    · simp [dispatch, onCookieAdded_other cfg w c hc]
  | cookieRemoved c =>
    by_cases hc : c.name = "SVPNCOOKIE" <;> simp [dispatch, onCookieRemoved, hc]
  | urlChanged u => simp [dispatch, handleUrlChange_seen cfg w u hd]
  | closed => simp [dispatch, closeEvent]

theorem run_seen_lines (cfg : Config) (w : MainWindow) (events : List Event)
    (hd : w.didSeeUrlToWaitFor = true) :
    (run cfg w events).stdout.length ≤ events.countP isSvpnAdded := by
  induction events generalizing w with
  | nil => simp [run]
  | cons e es ih =>
    have h1 := dispatch_seen_lines cfg w e hd
    have h2 := ih _ (dispatch_keeps_seen cfg w e hd)
    simp only [run, List.length_append, List.countP_cons]
    omega

theorem run_lines (cfg : Config) (w : MainWindow) (events : List Event) :
    (run cfg w events).stdout.length ≤ 1 + events.countP isSvpnAdded := by
  induction events generalizing w with
  | nil => simp [run]
  | cons e es ih =>
    simp only [run, List.length_append, List.countP_cons]
    cases hs : (dispatch cfg w e).window.didSeeUrlToWaitFor
    · have h1 := dispatch_silent_before_seen cfg w e hs
      have h2 := ih (dispatch cfg w e).window
      rw [h1]
      simp only [List.length_nil]
      omega
    · have h1 := dispatch_one_line cfg w e
      have h2 := run_seen_lines cfg _ es hs
      omega

/-- C4, as the code has it. Each handler call writes at most one line; with keepOpen
false the handlers together write at most one cookie line up to and including the
first call that requests an exit; and over a whole sequence, whatever keepOpen is,
the number of lines written is at most one more than the number of cookies named
SVPNCOOKIE added in it. -/
theorem single_output_line (cfg : Config) (w : MainWindow) (events : List Event) :
    (∀ e : Event, (dispatch cfg w e).stdout.length ≤ 1) ∧
    (cfg.keepOpen = false → (runUntilExit cfg w events).stdout.length ≤ 1) ∧
    (run cfg w events).stdout.length ≤ 1 + events.countP isSvpnAdded :=
  ⟨fun e => dispatch_one_line cfg w e,
    fun hk => runUntilExit_one_line cfg w events hk,
    run_lines cfg w events⟩

theorem single_output_line_witness :
    sampleConfig.keepOpen = false ∧
    (runUntilExit sampleConfig initialWindow
        [Event.cookieAdded sampleCookie, Event.urlChanged sampleUrl,
          Event.cookieAdded sampleCookie]).stdout.length ≤ 1 :=
  ⟨rfl,
    (single_output_line sampleConfig initialWindow
      [Event.cookieAdded sampleCookie, Event.urlChanged sampleUrl,
        Event.cookieAdded sampleCookie]).2.1 rfl⟩

/-- C4, as the claim states it, fails: with keepOpen true the target URL is reached
and two cookies named SVPNCOOKIE are added afterwards; both calls of onCookieAdded
write a line, no exit is requested, and two lines are written in all. -/
theorem single_output_line_counterexample :
    (run sampleConfigKeepOpen initialWindow
        [Event.urlChanged sampleUrl, Event.cookieAdded sampleCookie,
          Event.cookieAdded { name := "SVPNCOOKIE", value := "def456" }]).stdout
      = ["SVPNCOOKIE=abc123", "SVPNCOOKIE=def456"] ∧
    (run sampleConfigKeepOpen initialWindow
        [Event.urlChanged sampleUrl, Event.cookieAdded sampleCookie,
          Event.cookieAdded { name := "SVPNCOOKIE", value := "def456" }]).exits = [] ∧
    ¬ (run sampleConfigKeepOpen initialWindow
        [Event.urlChanged sampleUrl, Event.cookieAdded sampleCookie,
          Event.cookieAdded { name := "SVPNCOOKIE", value := "def456" }]).stdout.length ≤ 1 := by
  decide

end OpenfortivpnWebview
